import Mathlib

/-!
Verification development for the `sticker_collector` chat-bot plugin
(`src/main.py`).  The plugin collects images from group messages, asks a
multimodal LLM whether each image is a sticker, stores accepted stickers in
a SQLite table with a UNIQUE `url` column, and retrieves stickers by
emotion/keyword.

The embedding below models:
  * the SQLite `stickers` table as a `List Sticker` (insertion order), with
    `INSERT OR IGNORE` + the UNIQUE constraint on `url` as `insertIfNew`;
  * SQLite `LIKE '%kw%'` matching (case-insensitive on ASCII letters, the
    SQLite default) as `likeMatch`;
  * the `auto_collect_sticker` handler as a total function
    `autoCollectSticker` over explicit inputs: the configuration, the
    message component list, provider availability, and the outcome of the
    LLM call (which is external input to the plugin); the result records
    the new store, whether `event.stop_event()` was called, the list of
    classify calls made, and whether the accept branch was reached;
  * the `send_sticker` tool and the `sticker search` command as functions
    producing `Reply` values, with the `ORDER BY RANDOM() LIMIT 1` draw
    modelled by an arbitrary pick index.
-/

namespace StickerCollector

/-- A row of the `stickers` table (src/main.py lines 56-66).  `id` and
`created_at` are assigned by the storage engine and not modelled; the
UNIQUE constraint on `url` is enforced by `insertIfNew`. -/
structure Sticker where
  url : String
  emotion : String
  description : String
  sourcePlatform : String
  sourceGroupId : String
  sourceSenderId : String
deriving DecidableEq, Repr

/-- `INSERT OR IGNORE INTO stickers ... (url UNIQUE)` (line 121): if a row
with the same `url` already exists the statement is a silent no-op,
otherwise the row is appended. -/
def insertIfNew (db : List Sticker) (s : Sticker) : List Sticker :=
  if db.any (fun r => r.url == s.url) then db else db ++ [s]

/-- Number of rows in the store with the given url. -/
def urlCount (db : List Sticker) (u : String) : Nat :=
  (db.filter (fun r => r.url == u)).length

/-- The UNIQUE-constraint invariant of the `stickers` table: at most one
row per url. -/
def uniqueUrls (db : List Sticker) : Prop :=
  ∀ u, urlCount db u ≤ 1

/-- SQLite `LIKE` folds case for ASCII letters (codepoints 65-90) only;
all other characters compare verbatim. -/
def lowerAscii (c : Char) : Char :=
  if 65 ≤ c.toNat ∧ c.toNat ≤ 90 then Char.ofNat (c.toNat + 32) else c

/-- Does `needle` occur at the start of `hay`? -/
def startsWithL : List Char → List Char → Bool
  | [], _ => true
  | _ :: _, [] => false
  | a :: as, b :: bs => a == b && startsWithL as bs

/-- Does `needle` occur as a contiguous sublist of `hay`? -/
def hasSubL (needle : List Char) : List Char → Bool
  | [] => needle.isEmpty
  | b :: bs => startsWithL needle (b :: bs) || hasSubL needle bs

/-- All suffixes of a character list, from the list itself down to `[]`. -/
def suffixes : List Char → List (List Char)
  | [] => [[]]
  | c :: vs => (c :: vs) :: suffixes vs

/-- SQLite `LIKE` pattern matching over (already case-folded) character
lists: `%` matches any sequence of characters, `_` matches exactly one
character, and every other pattern character matches itself. -/
def likeL : List Char → List Char → Bool
  | [], v => v.isEmpty
  | p :: ps, v =>
    if p = '%' then (suffixes v).any (fun s => likeL ps s)
    else
      match v with
      | [] => false
      | c :: vs => if p = '_' then likeL ps vs else p == c && likeL ps vs

/-- `value LIKE pattern` in SQLite: wildcard pattern matching,
case-insensitive on ASCII letters. -/
def likeHolds (pattern value : String) : Bool :=
  likeL (pattern.data.map lowerAscii) (value.data.map lowerAscii)

/-- The filter the queries build (lines 156-161, 194-195): the keyword is
interpolated unescaped into the pattern `'%kw%'` (no ESCAPE clause), so
`%` and `_` inside the keyword act as live SQLite wildcards. -/
def likeMatch (kw value : String) : Bool :=
  likeHolds ("%" ++ kw ++ "%") value

/-- The matching notion the spec describes for search and retrieval: the
keyword occurs literally as a substring of the value, matched
case-insensitively.  Stated from the spec's words, for comparison with
the LIKE semantics the code actually uses. -/
def containsKw (kw value : String) : Bool :=
  hasSubL (kw.data.map lowerAscii) (value.data.map lowerAscii)

/-- A keyword free of the SQLite LIKE wildcard characters `%` and `_`. -/
def wildcardFree (s : String) : Bool :=
  s.data.all (fun c => !(c == '%') && !(c == '_'))

/-- The filter of the `sticker search` command (line 194):
`description LIKE ? OR emotion LIKE ?`, truncated by `LIMIT 5`. -/
def searchStickers (db : List Sticker) (kw : String) : List Sticker :=
  (db.filter (fun r => likeMatch kw r.description || likeMatch kw r.emotion)).take 5

/-- The rows matching a `send_sticker` query (lines 156-161):
`emotion LIKE ?`, and additionally `description LIKE ?` when the
`keywords` argument is truthy (non-empty). -/
def matchingStickers (db : List Sticker) (emotion keywords : String) : List Sticker :=
  db.filter (fun r => likeMatch emotion r.emotion &&
    (keywords == "" || likeMatch keywords r.description))

/-- `SELECT url FROM stickers WHERE ... ORDER BY RANDOM() LIMIT 1`
(line 163): one of the matching rows, chosen by the storage engine's
random draw (modelled by the arbitrary index `pick`); `none` when no row
matches. -/
def findRandom (db : List Sticker) (emotion keywords : String) (pick : Nat) :
    Option Sticker :=
  let ms := matchingStickers db emotion keywords
  ms[pick % ms.length]?

/-- A reply produced by a handler: `event.image_result url` or
`event.plain_result txt`. -/
inductive Reply where
  | image (url : String)
  | plain (txt : String)
deriving DecidableEq, Repr

/-- The replies yielded by one invocation of the `send_sticker` tool
(lines 144-179).  The store read is an `Except`: `.error` is any storage
exception, caught at line 177. -/
def sendStickerReplies (outcome : Except Unit (List Sticker))
    (emotion keywords : String) (pick : Nat) : List Reply :=
  match outcome with
  | .error _ => [.plain "哎呀，我的表情包数据库出错了！"]
  | .ok db =>
    match findRandom db emotion keywords pick with
    | some s => [.image s.url]
    | none => [.plain ("抱歉，我还没存有关于“" ++ emotion ++ " " ++ keywords ++ "”的表情包。")]

/-- The reply of the `sticker search <keyword>` command (lines 188-207).
The formatted list for a non-empty result is built by `searchHeader` plus
one line per row; only its non-emptiness matters to the claims. -/
def searchListing (kw : String) (rows : List Sticker) : String :=
  rows.foldl (fun acc r => acc ++ "- [情感: " ++ r.emotion ++ "] " ++ r.description ++ "\n")
    ("找到关于“" ++ kw ++ "”的 " ++ toString rows.length ++ " 个表情：\n")

/-- Reply of the `sticker search` command, with storage faults as
`.error` (caught at line 205). -/
def searchReply (outcome : Except Unit (List Sticker)) (kw : String) : Reply :=
  match outcome with
  | .error _ => .plain "搜索时出错。"
  | .ok db =>
    let rows := searchStickers db kw
    if rows.isEmpty then .plain ("未找到关于“" ++ kw ++ "”的表情。")
    else .plain (searchListing kw rows)

/-- A JSON value as produced by `json.loads`, restricted to the shapes a
field of the top-level object can take.  `.comp t` stands for a composite
value (array/object); `t` is its Python truthiness (non-emptiness). -/
inductive JsonVal where
  | null
  | bool (b : Bool)
  | num (q : ℚ)
  | str (s : String)
  | comp (t : Bool)
deriving DecidableEq, Repr

/-- Python truthiness of a JSON value, as used by `if is_sticker and ...`
(line 114). -/
def truthy : JsonVal → Bool
  | .null => false
  | .bool b => b
  | .num q => decide (q ≠ 0)
  | .str s => decide (s ≠ "")
  | .comp t => t

/-- Python `v >= m` for a float threshold `m`: numbers and bools compare
(True == 1, False == 0); comparing `None`, a string or a composite with a
float raises `TypeError`, modelled as `.error` (caught by the handler's
`except Exception`, line 136). -/
def pyGe (v : JsonVal) (m : ℚ) : Except Unit Bool :=
  match v with
  | .num q => .ok (decide (m ≤ q))
  | .bool b => .ok (decide (m ≤ (if b then (1 : ℚ) else 0)))
  | _ => .error ()

/-- `analysis_result.get(k, dflt)` (lines 110-111): the first binding of
`k` in the parsed object, or the default. -/
def jget (fields : List (String × JsonVal)) (k : String) (dflt : JsonVal) : JsonVal :=
  match fields.lookup k with
  | some v => v
  | none => dflt

/-- Binding a JSON value as a SQL parameter (line 121): `None` becomes
NULL, strings pass through, Python bools/floats are adapted to their
SQLite text-affinity form; a composite value has no adapter and raises
`InterfaceError`, modelled as `.error` (caught at line 136). -/
def bindParam : JsonVal → Except Unit (Option String)
  | .null => .ok none
  | .bool b => .ok (some (if b then "1" else "0"))
  | .num q => .ok (some (toString q))
  | .str s => .ok (some s)
  | .comp _ => .error ()

/-- One component of the inbound message: an image (with its optional
`url` attribute) or anything else. -/
inductive MsgComp where
  | image (url : Option String)
  | other
deriving DecidableEq, Repr

/-- The scan at lines 81-85: the first `Comp.Image` in the component list,
with its `url` field, if any image is present. -/
def firstImage : List MsgComp → Option (Option String)
  | [] => none
  | .image u :: _ => some u
  | .other :: rest => firstImage rest

/-- The guard at line 87: the handler proceeds only when an image was
found AND its url is truthy (present and non-empty). -/
def firstImageUrl (comps : List MsgComp) : Option String :=
  match firstImage comps with
  | some (some s) => if s == "" then none else some s
  | _ => none

/-- The plugin configuration values read by the handler
(`auto_collect_enabled` default true, `min_confidence` default 0.8). -/
structure Config where
  autoCollectEnabled : Bool
  minConfidence : ℚ
deriving DecidableEq, Repr

/-- Provenance taken from the triggering event (lines 126-128). -/
structure EventInfo where
  platform : String
  groupId : String
  senderId : String
deriving DecidableEq, Repr

/-- The outcome of the `provider.text_chat` call plus `json.loads` on its
completion text — external input to the handler.  `.exn` is an exception
from the provider call itself; `.badJson` is a completion text that is not
valid JSON (`json.JSONDecodeError`, caught at line 134); `.nonObject` is
valid JSON whose top level is not an object, so `.get` raises
`AttributeError` (caught at line 136); `.obj fields` is a parsed JSON
object. -/
inductive LLMOutcome where
  | exn
  | badJson
  | nonObject
  | obj (fields : List (String × JsonVal))
deriving DecidableEq, Repr

/-- The observable result of one run of `auto_collect_sticker`:
the store after the run, whether `event.stop_event()` was called
(line 140), the urls passed to the classifier call (line 100-105), and
whether the accept branch (line 114, the store write) was reached. -/
structure PipeResult where
  db : List Sticker
  handled : Bool
  classifyCalls : List String
  accepted : Bool
deriving DecidableEq, Repr

/-- The store write of the accept branch (lines 119-131):
`INSERT OR IGNORE` with the NOT NULL columns `emotion`/`description`.
A NULL in a NOT NULL column makes `OR IGNORE` skip the row silently;
an unbindable parameter raises, is caught at line 136, and likewise
leaves the store unchanged. -/
def runInsert (db : List Sticker) (url : String) (emotion description : JsonVal)
    (ev : EventInfo) : List Sticker :=
  match bindParam emotion, bindParam description with
  | .ok (some e), .ok (some d) =>
      insertIfNew db ⟨url, e, d, ev.platform, ev.groupId, ev.senderId⟩
  | _, _ => db

/-- The `auto_collect_sticker` handler (lines 74-140) as a total function.
Early returns (collection disabled, no truthy image url, no provider)
leave the store untouched and do NOT stop the event; once the `try` block
is entered, every path — accept, reject, `JSONDecodeError`, or any other
exception — runs the `finally` and stops the event. -/
def autoCollectSticker (cfg : Config) (comps : List MsgComp) (providerOk : Bool)
    (llm : LLMOutcome) (ev : EventInfo) (db : List Sticker) : PipeResult :=
  if cfg.autoCollectEnabled = false then ⟨db, false, [], false⟩
  else
    match firstImageUrl comps with
    | none => ⟨db, false, [], false⟩
    | some url =>
      if providerOk = false then ⟨db, false, [], false⟩
      else
        match llm with
        | .exn => ⟨db, true, [url], false⟩
        | .badJson => ⟨db, true, [url], false⟩
        | .nonObject => ⟨db, true, [url], false⟩
        | .obj fields =>
          if truthy (jget fields "is_sticker" (.bool false)) then
            match pyGe (jget fields "confidence" (.num 0)) cfg.minConfidence with
            | .error _ => ⟨db, true, [url], false⟩
            | .ok true =>
                ⟨runInsert db url (jget fields "emotion" .null)
                  (jget fields "description" .null) ev, true, [url], true⟩
            | .ok false => ⟨db, true, [url], false⟩
          else ⟨db, true, [url], false⟩

/-! ### Helper lemmas -/

theorem mem_matchingStickers {db : List Sticker} {e k : String} {s : Sticker}
    (h : s ∈ matchingStickers db e k) :
    likeMatch e s.emotion = true ∧ (k ≠ "" → likeMatch k s.description = true) := by
  have h' := (List.mem_filter.mp h).2
  simp only [Bool.and_eq_true, Bool.or_eq_true] at h'
  refine ⟨h'.1, fun hk => ?_⟩
  rcases h'.2 with h2 | h2
  · exact absurd (by simpa using h2) hk
  · exact h2

theorem findRandom_mem {db : List Sticker} {e k : String} {pick : Nat} {s : Sticker}
    (h : findRandom db e k pick = some s) : s ∈ matchingStickers db e k := by
  unfold findRandom at h
  exact List.getElem?_mem h

theorem insertIfNew_of_any {db : List Sticker} {s : Sticker}
    (h : db.any (fun r => r.url == s.url) = true) : insertIfNew db s = db := by
  simp [insertIfNew, h]

theorem firstImage_all_other {pre : List MsgComp} (rest : List MsgComp)
    (u : Option String) (hpre : ∀ c ∈ pre, c = MsgComp.other) :
    firstImage (pre ++ MsgComp.image u :: rest) = some u := by
  induction pre with
  | nil => rfl
  | cons c cs ih =>
      have hc : c = MsgComp.other := hpre c (List.mem_cons_self c cs)
      subst hc
      simpa [firstImage] using ih (fun c hc => hpre c (List.mem_cons_of_mem _ hc))

theorem autoCollect_entered (cfg : Config) (comps : List MsgComp) (providerOk : Bool)
    (llm : LLMOutcome) (ev : EventInfo) (db : List Sticker) (url : String)
    (hen : cfg.autoCollectEnabled = true)
    (himg : firstImageUrl comps = some url)
    (hprov : providerOk = true) :
    (autoCollectSticker cfg comps providerOk llm ev db).handled = true
    ∧ (autoCollectSticker cfg comps providerOk llm ev db).classifyCalls = [url] := by
  unfold autoCollectSticker
  rw [hen, himg, hprov]
  simp only [Bool.true_eq_false, if_false]
  cases llm with
  | exn => exact ⟨rfl, rfl⟩
  | badJson => exact ⟨rfl, rfl⟩
  | nonObject => exact ⟨rfl, rfl⟩
  | obj fields =>
      dsimp only
      split
      · split <;> exact ⟨rfl, rfl⟩
      · exact ⟨rfl, rfl⟩

theorem toNat_ofNat_valid {n : Nat} (h : n.isValidChar) : (Char.ofNat n).toNat = n := by
  rw [Char.ofNat, dif_pos h]
  rfl

theorem lowerAscii_ne_wildcard {c : Char} (h1 : c ≠ '%') (h2 : c ≠ '_') :
    lowerAscii c ≠ '%' ∧ lowerAscii c ≠ '_' := by
  unfold lowerAscii
  split
  case isTrue h =>
    have hv : (c.toNat + 32).isValidChar := Or.inl (by omega)
    have h37 : ('%' : Char).toNat = 37 := by decide
    have h95 : ('_' : Char).toNat = 95 := by decide
    constructor <;> intro heq <;> have ht := congrArg Char.toNat heq <;>
      rw [toNat_ofNat_valid hv] at ht
    · rw [h37] at ht; omega
    · rw [h95] at ht; omega
  case isFalse h => exact ⟨h1, h2⟩

theorem nil_mem_suffixes (v : List Char) : [] ∈ suffixes v := by
  induction v with
  | nil => simp [suffixes]
  | cons c vs ih => simp [suffixes, ih]

theorem likeL_pct (v : List Char) : likeL ['%'] v = true := by
  have h1 : likeL ['%'] v = (suffixes v).any (fun s => likeL [] s) := by simp [likeL]
  rw [h1, List.any_eq_true]
  exact ⟨[], nil_mem_suffixes v, by simp [likeL]⟩

theorem startsWithL_nil (l : List Char) : startsWithL l [] = l.isEmpty := by
  cases l <;> rfl

theorem likeL_literal_pct (l : List Char) (hl : ∀ c ∈ l, c ≠ '%' ∧ c ≠ '_') :
    ∀ v, likeL (l ++ ['%']) v = startsWithL l v := by
  induction l with
  | nil => intro v; simpa [startsWithL] using likeL_pct v
  | cons a as ih =>
      intro v
      have ha := hl a (List.mem_cons_self a as)
      have ih' := ih (fun c hc => hl c (List.mem_cons_of_mem a hc))
      cases v with
      | nil => simp [likeL, startsWithL, ha.1]
      | cons c vs => simp [likeL, startsWithL, ha.1, ha.2, ih' vs]

theorem hasSubL_eq_any (l v : List Char) :
    hasSubL l v = (suffixes v).any (fun s => startsWithL l s) := by
  induction v with
  | nil => simp [hasSubL, suffixes, startsWithL_nil]
  | cons c vs ih => simp [hasSubL, suffixes, ih]

theorem likeL_pct_wrap (l : List Char) (hl : ∀ c ∈ l, c ≠ '%' ∧ c ≠ '_')
    (v : List Char) : likeL ('%' :: (l ++ ['%'])) v = hasSubL l v := by
  have h1 : likeL ('%' :: (l ++ ['%'])) v
      = (suffixes v).any (fun s => likeL (l ++ ['%']) s) := by simp [likeL]
  rw [h1, hasSubL_eq_any]
  simp only [likeL_literal_pct l hl]

/-- On keywords free of `%` and `_`, the LIKE pattern `'%kw%'` the code
builds agrees with the spec's case-insensitive substring containment. -/
theorem likeMatch_eq_containsKw (kw v : String) (hkw : wildcardFree kw = true) :
    likeMatch kw v = containsKw kw v := by
  have hmap : ∀ c ∈ kw.data.map lowerAscii, c ≠ '%' ∧ c ≠ '_' := by
    intro c hc
    obtain ⟨a, ha, rfl⟩ := List.mem_map.mp hc
    have := List.all_eq_true.mp hkw a ha
    simp only [Bool.and_eq_true, Bool.not_eq_true', beq_eq_false_iff_ne] at this
    exact lowerAscii_ne_wildcard this.1 this.2
  unfold likeMatch likeHolds containsKw
  have hdata : ("%" ++ kw ++ "%").data = '%' :: (kw.data ++ ['%']) := by
    simp [String.data_append]
  rw [hdata]
  have hpct : lowerAscii '%' = '%' := by decide
  simp only [List.map_cons, List.map_append, List.map_cons, List.map_nil, hpct]
  exact likeL_pct_wrap _ hmap _

/-! ### Claims -/

/-- **C1.** The collection pipeline reaches the store-write (persist) step
iff the parsed verdict has `is_sticker == true` and
`confidence >= min_confidence`; on the reject side the store is unchanged,
and on the accept side the store is exactly the result of the insert.  In
particular a confidence exactly equal to the threshold is accepted and one
strictly below it is rejected. -/
theorem collect_accept_iff (cfg : Config) (comps : List MsgComp) (providerOk : Bool)
    (fields : List (String × JsonVal)) (ev : EventInfo) (db : List Sticker)
    (url : String) (b : Bool) (c : ℚ)
    (hen : cfg.autoCollectEnabled = true)
    (himg : firstImageUrl comps = some url)
    (hprov : providerOk = true)
    (hb : fields.lookup "is_sticker" = some (.bool b))
    (hc : fields.lookup "confidence" = some (.num c)) :
    (autoCollectSticker cfg comps providerOk (.obj fields) ev db).accepted
      = (b && decide (cfg.minConfidence ≤ c))
    ∧ ((b && decide (cfg.minConfidence ≤ c)) = false →
        (autoCollectSticker cfg comps providerOk (.obj fields) ev db).db = db)
    ∧ ((b && decide (cfg.minConfidence ≤ c)) = true →
        (autoCollectSticker cfg comps providerOk (.obj fields) ev db).db
          = runInsert db url (jget fields "emotion" .null)
              (jget fields "description" .null) ev) := by
  unfold autoCollectSticker
  rw [hen, himg, hprov]
  simp only [Bool.true_eq_false, if_false]
  simp only [jget, hb, hc, truthy, pyGe]
  cases b with
  | false => simp
  | true =>
      cases hd : decide (cfg.minConfidence ≤ c) with
      | false => simp [hd]
      | true => simp [hd]

/-- **C1 witness.** Boundary case: threshold 4/5 and confidence exactly
4/5 is accepted. -/
theorem collect_accept_iff_witness :
    (autoCollectSticker ⟨true, mkRat 4 5⟩ [.image (some "u")] true
      (.obj [("is_sticker", .bool true), ("confidence", .num (mkRat 4 5))])
      ⟨"p", "g", "s"⟩ []).accepted = true := by
  have h := collect_accept_iff ⟨true, mkRat 4 5⟩ [.image (some "u")] true
    [("is_sticker", .bool true), ("confidence", .num (mkRat 4 5))]
    ⟨"p", "g", "s"⟩ [] "u" true (mkRat 4 5) rfl (by decide) rfl (by decide) (by decide)
  rw [h.1]
  decide

/-- **C2.** On a store satisfying the UNIQUE-url invariant, inserting a
second sticker with the same url is a silent no-op: the store is left
exactly as after the first insert (hence equal record counts), and exactly
one record with that url exists.  `insertIfNew` is a total function, so no
error is raised. -/
theorem insert_same_url_noop (db : List Sticker) (s t : Sticker)
    (huniq : uniqueUrls db) (heq : t.url = s.url) :
    insertIfNew (insertIfNew db s) t = insertIfNew db s
    ∧ (insertIfNew (insertIfNew db s) t).length = (insertIfNew db s).length
    ∧ urlCount (insertIfNew (insertIfNew db s) t) s.url = 1 := by
  have hmain : insertIfNew (insertIfNew db s) t = insertIfNew db s
      ∧ urlCount (insertIfNew db s) s.url = 1 := by
    cases h : db.any (fun r => r.url == s.url) with
    | true =>
        have h1 : insertIfNew db s = db := insertIfNew_of_any h
        rw [h1]
        constructor
        · apply insertIfNew_of_any
          rw [heq]; exact h
        · rcases List.any_eq_true.mp h with ⟨r, hr, hru⟩
          have hmemf : r ∈ db.filter (fun r => r.url == s.url) :=
            List.mem_filter.mpr ⟨hr, hru⟩
          have hge : 1 ≤ urlCount db s.url := by
            have := List.length_pos.mpr (List.ne_nil_of_mem hmemf)
            simpa [urlCount] using this
          exact Nat.le_antisymm (huniq s.url) hge
    | false =>
        have h1 : insertIfNew db s = db ++ [s] := by simp [insertIfNew, h]
        rw [h1]
        constructor
        · apply insertIfNew_of_any
          simp [List.any_append, heq]
        · have hzero : db.filter (fun r => r.url == s.url) = [] := by
            apply List.filter_eq_nil_iff.mpr
            intro r hr
            exact List.any_eq_false.mp h r hr
          simp [urlCount, List.filter_append, hzero]
  exact ⟨hmain.1, by rw [hmain.1], by rw [hmain.1]; exact hmain.2⟩

/-- **C2 witness.** Inserting the same record twice into an empty store
leaves a single record. -/
theorem insert_same_url_noop_witness :
    insertIfNew (insertIfNew [] (⟨"u", "e", "d", "p", "g", "s"⟩ : Sticker))
        (⟨"u", "e2", "d2", "p", "g", "s"⟩ : Sticker)
      = insertIfNew [] (⟨"u", "e", "d", "p", "g", "s"⟩ : Sticker)
    ∧ urlCount (insertIfNew (insertIfNew [] (⟨"u", "e", "d", "p", "g", "s"⟩ : Sticker))
        (⟨"u", "e2", "d2", "p", "g", "s"⟩ : Sticker)) "u" = 1 := by
  have h := insert_same_url_noop [] ⟨"u", "e", "d", "p", "g", "s"⟩
    ⟨"u", "e2", "d2", "p", "g", "s"⟩ (fun u => by simp [urlCount]) rfl
  exact ⟨h.1, h.2.2⟩

/-- **C3.** A verdict whose `is_sticker` field is `false` never writes a
record: the store is unchanged and the accept branch is not reached,
whatever the confidence field holds and whatever the configuration,
message and provider state are. -/
theorem negative_verdict_no_write (cfg : Config) (comps : List MsgComp)
    (providerOk : Bool) (fields : List (String × JsonVal)) (ev : EventInfo)
    (db : List Sticker)
    (hb : fields.lookup "is_sticker" = some (.bool false)) :
    (autoCollectSticker cfg comps providerOk (.obj fields) ev db).db = db
    ∧ (autoCollectSticker cfg comps providerOk (.obj fields) ev db).accepted = false := by
  unfold autoCollectSticker
  cases hen : cfg.autoCollectEnabled with
  | false => simp
  | true =>
      simp only [Bool.true_eq_false, if_false]
      cases himg : firstImageUrl comps with
      | none => exact ⟨rfl, rfl⟩
      | some url =>
          cases providerOk with
          | false => simp
          | true =>
              simp only [Bool.true_eq_false, if_false]
              simp [jget, hb, truthy]

/-- **C3 witness.** A negative verdict with very high confidence leaves
an empty store empty. -/
theorem negative_verdict_no_write_witness :
    (autoCollectSticker ⟨true, mkRat 4 5⟩ [.image (some "u")] true
      (.obj [("is_sticker", .bool false), ("confidence", .num 1)])
      ⟨"p", "g", "s"⟩ []).db = ([] : List Sticker) := by
  exact (negative_verdict_no_write ⟨true, mkRat 4 5⟩ [.image (some "u")] true
    [("is_sticker", .bool false), ("confidence", .num 1)]
    ⟨"p", "g", "s"⟩ [] (by decide)).1

/-- **C4.** When the LLM reply is not valid JSON, the pipeline writes no
record, the accept branch is not reached, and the event is still marked
handled; the `JSONDecodeError` is caught, so the handler is a total
function and no exception escapes. -/
theorem bad_json_no_write (cfg : Config) (comps : List MsgComp)
    (providerOk : Bool) (ev : EventInfo) (db : List Sticker) (url : String)
    (hen : cfg.autoCollectEnabled = true)
    (himg : firstImageUrl comps = some url)
    (hprov : providerOk = true) :
    (autoCollectSticker cfg comps providerOk .badJson ev db).db = db
    ∧ (autoCollectSticker cfg comps providerOk .badJson ev db).accepted = false
    ∧ (autoCollectSticker cfg comps providerOk .badJson ev db).handled = true := by
  unfold autoCollectSticker
  rw [hen, himg, hprov]
  simp

/-- **C4 witness.** Concrete run with a non-JSON reply: empty store stays
empty and the event is handled. -/
theorem bad_json_no_write_witness :
    (autoCollectSticker ⟨true, mkRat 4 5⟩ [.image (some "u")] true
      .badJson ⟨"p", "g", "s"⟩ []).db = ([] : List Sticker)
    ∧ (autoCollectSticker ⟨true, mkRat 4 5⟩ [.image (some "u")] true
      .badJson ⟨"p", "g", "s"⟩ []).handled = true := by
  have h := bad_json_no_write ⟨true, mkRat 4 5⟩ [.image (some "u")] true
    ⟨"p", "g", "s"⟩ [] "u" rfl (by decide) rfl
  exact ⟨h.1, h.2.2⟩

/-- **C5.** Once the preconditions hold and the `try` block is entered,
`event.stop_event()` runs in the `finally` on every path: accept, reject,
provider exception, JSON parse failure, non-object JSON, type errors —
for every LLM outcome and every store state the event is marked handled. -/
theorem always_stops_event (cfg : Config) (comps : List MsgComp)
    (providerOk : Bool) (llm : LLMOutcome) (ev : EventInfo) (db : List Sticker)
    (url : String)
    (hen : cfg.autoCollectEnabled = true)
    (himg : firstImageUrl comps = some url)
    (hprov : providerOk = true) :
    (autoCollectSticker cfg comps providerOk llm ev db).handled = true :=
  (autoCollect_entered cfg comps providerOk llm ev db url hen himg hprov).1

/-- **C5 witness.** Even when the provider call raises, the event is
marked handled. -/
theorem always_stops_event_witness :
    (autoCollectSticker ⟨true, mkRat 4 5⟩ [.image (some "u")] true
      .exn ⟨"p", "g", "s"⟩ []).handled = true :=
  always_stops_event ⟨true, mkRat 4 5⟩ [.image (some "u")] true
    .exn ⟨"p", "g", "s"⟩ [] "u" rfl (by decide) rfl

/-- **C6 counterexample.** The keyword is interpolated into the LIKE
pattern unescaped, so for the keyword `"_"` the query pattern `%_%`
matches any non-empty field: the search returns a record although neither
its emotion nor its description contains `"_"` as a substring.  This
refutes the claim as stated. -/
theorem search_spec_counterexample :
    searchStickers [⟨"u", "a", "b", "p", "g", "s"⟩] "_"
      = [⟨"u", "a", "b", "p", "g", "s"⟩]
    ∧ containsKw "_" "b" = false
    ∧ containsKw "_" "a" = false := by decide

/-- **C6 (amended).** For every keyword free of the SQLite LIKE wildcards
`%` and `_`, the `sticker search` command returns only records whose
emotion OR description contains the keyword as a substring (matched
case-insensitively); for every keyword it returns at most 5 records, and
a keyword matching no record yields the "not found" reply instead of an
error. -/
theorem search_spec_amended (db : List Sticker) (kw : String) :
    (wildcardFree kw = true →
      ∀ r ∈ searchStickers db kw,
        (containsKw kw r.description || containsKw kw r.emotion) = true)
    ∧ (searchStickers db kw).length ≤ 5
    ∧ (searchStickers db kw = [] →
        searchReply (.ok db) kw = .plain ("未找到关于“" ++ kw ++ "”的表情。")) := by
  refine ⟨?_, ?_, ?_⟩
  · intro hkw r hr
    have hmem := List.mem_of_mem_take hr
    have hlike := (List.mem_filter.mp hmem).2
    rw [← likeMatch_eq_containsKw kw r.description hkw,
      ← likeMatch_eq_containsKw kw r.emotion hkw]
    exact hlike
  · exact List.length_take_le 5 _
  · intro hnil
    simp [searchReply, hnil]

/-- **C6 witness.** The wildcard-free keyword "高" matches the record with
emotion "高兴" as a literal substring; the keyword "xyz" matches nothing
and yields the not-found reply. -/
theorem search_spec_amended_witness :
    (containsKw "高" (⟨"u", "高兴", "猫咪", "p", "g", "s"⟩ : Sticker).description
      || containsKw "高" (⟨"u", "高兴", "猫咪", "p", "g", "s"⟩ : Sticker).emotion) = true
    ∧ searchReply (.ok [⟨"u", "高兴", "猫咪", "p", "g", "s"⟩]) "xyz"
        = .plain ("未找到关于“" ++ "xyz" ++ "”的表情。") := by
  refine ⟨?_, ?_⟩
  · exact (search_spec_amended [⟨"u", "高兴", "猫咪", "p", "g", "s"⟩] "高").1
      (by decide) ⟨"u", "高兴", "猫咪", "p", "g", "s"⟩ (by decide)
  · exact (search_spec_amended [⟨"u", "高兴", "猫咪", "p", "g", "s"⟩] "xyz").2.2 (by decide)

/-- **C7 counterexample.** With the emotion query `"_"`, the real query
`emotion LIKE '%_%'` matches every record with a non-empty emotion, so a
random draw returns a record whose emotion does not contain the query as
a substring.  This refutes the claim as stated. -/
theorem find_random_counterexample :
    findRandom [⟨"u", "悲伤", "d", "p", "g", "s"⟩] "_" "" 0
      = some ⟨"u", "悲伤", "d", "p", "g", "s"⟩
    ∧ containsKw "_" "悲伤" = false := by decide

/-- **C7 (amended).** For every emotion query and keyword free of the
SQLite LIKE wildcards `%` and `_`, `find_random` (the
`ORDER BY RANDOM() LIMIT 1` query of the `send_sticker` tool) returns, on
every random draw, only a record whose emotion contains the query as a
substring (case-insensitively) — and whose description also contains the
keyword when one is supplied — and returns none when the store has no
matching record. -/
theorem find_random_spec_amended (db : List Sticker) (e k : String) (pick : Nat) :
    (wildcardFree e = true → wildcardFree k = true →
      ∀ s, findRandom db e k pick = some s →
        containsKw e s.emotion = true ∧ (k ≠ "" → containsKw k s.description = true))
    ∧ (matchingStickers db e k = [] → findRandom db e k pick = none) := by
  constructor
  · intro he hk s hs
    have hm := mem_matchingStickers (findRandom_mem hs)
    refine ⟨?_, fun hne => ?_⟩
    · rw [← likeMatch_eq_containsKw e s.emotion he]
      exact hm.1
    · rw [← likeMatch_eq_containsKw k s.description hk]
      exact hm.2 hne
  · intro hnil
    unfold findRandom
    rw [hnil]
    rfl

/-- **C7 witness.** The spec's scenario: a store with a 高兴 record and a
悲伤 record, queried for the wildcard-free emotion 高兴, returns a record
whose emotion literally contains 高兴 (so never the 悲伤 record), here at
draw index 7. -/
theorem find_random_spec_amended_witness :
    containsKw "高兴"
      (⟨"http://x/1.png", "高兴", "猫咪", "p", "g", "s"⟩ : Sticker).emotion = true := by
  exact ((find_random_spec_amended
    [⟨"http://x/1.png", "高兴", "猫咪", "p", "g", "s"⟩,
     ⟨"http://x/2.png", "悲伤", "狗狗", "p", "g", "s"⟩] "高兴" "" 7).1
    (by decide) (by decide)
    ⟨"http://x/1.png", "高兴", "猫咪", "p", "g", "s"⟩ (by decide)).1

/-- **C8.** When the preconditions hold (collection enabled, a first image
component with a truthy url, provider available), the classifier is
called exactly once, on the url of the first image component of the
message; later image components are not processed. -/
theorem classify_first_image_once (cfg : Config) (pre rest : List MsgComp)
    (u : String) (providerOk : Bool) (llm : LLMOutcome) (ev : EventInfo)
    (db : List Sticker)
    (hen : cfg.autoCollectEnabled = true)
    (hpre : ∀ c ∈ pre, c = MsgComp.other)
    (hu : u ≠ "")
    (hprov : providerOk = true) :
    (autoCollectSticker cfg (pre ++ MsgComp.image (some u) :: rest)
      providerOk llm ev db).classifyCalls = [u] := by
  have himg : firstImageUrl (pre ++ MsgComp.image (some u) :: rest) = some u := by
    unfold firstImageUrl
    rw [firstImage_all_other rest (some u) hpre]
    simp [hu]
  exact (autoCollect_entered cfg _ providerOk llm ev db u hen himg hprov).2

/-- **C8 witness.** A message with text, then two images: only the first
image's url is classified. -/
theorem classify_first_image_once_witness :
    (autoCollectSticker ⟨true, mkRat 4 5⟩
      ([MsgComp.other] ++ MsgComp.image (some "u1") :: [MsgComp.image (some "u2")])
      true .badJson ⟨"p", "g", "s"⟩ []).classifyCalls = ["u1"] := by
  exact classify_first_image_once ⟨true, mkRat 4 5⟩ [MsgComp.other]
    [MsgComp.image (some "u2")] "u1" true .badJson ⟨"p", "g", "s"⟩ []
    rfl (by decide) (by decide) rfl

/-- **C9.** The `send_sticker` tool yields exactly one reply on every
invocation: an image reply with the found record's url when a match
exists, the apology text naming the requested emotion and keywords when
none does, and the storage-error text when the store read fails. -/
theorem send_sticker_spec (outcome : Except Unit (List Sticker))
    (emotion keywords : String) (pick : Nat) :
    (sendStickerReplies outcome emotion keywords pick).length = 1
    ∧ (∀ db s, outcome = .ok db → findRandom db emotion keywords pick = some s →
        sendStickerReplies outcome emotion keywords pick = [.image s.url])
    ∧ (∀ db, outcome = .ok db → findRandom db emotion keywords pick = none →
        sendStickerReplies outcome emotion keywords pick
          = [.plain ("抱歉，我还没存有关于“" ++ emotion ++ " " ++ keywords ++ "”的表情包。")])
    ∧ (∀ e, outcome = .error e →
        sendStickerReplies outcome emotion keywords pick
          = [.plain "哎呀，我的表情包数据库出错了！"]) := by
  refine ⟨?_, ?_, ?_, ?_⟩
  · cases outcome with
    | error e => rfl
    | ok db =>
        cases h : findRandom db emotion keywords pick with
        | none => simp [sendStickerReplies, h]
        | some s => simp [sendStickerReplies, h]
  · intro db s hout hfind
    subst hout
    simp [sendStickerReplies, hfind]
  · intro db hout hfind
    subst hout
    simp [sendStickerReplies, hfind]
  · intro e hout
    subst hout
    rfl

/-- **C9 witness.** Found case: store with one 高兴 sticker, query 高兴,
reply is that sticker's image; error case: the storage-error text. -/
theorem send_sticker_spec_witness :
    sendStickerReplies (.ok [⟨"http://x/1.png", "高兴", "猫咪", "p", "g", "s"⟩])
        "高兴" "" 0 = [.image "http://x/1.png"]
    ∧ sendStickerReplies (.error ()) "高兴" "" 0
        = [.plain "哎呀，我的表情包数据库出错了！"] := by
  constructor
  · exact (send_sticker_spec (.ok [⟨"http://x/1.png", "高兴", "猫咪", "p", "g", "s"⟩])
      "高兴" "" 0).2.1 [⟨"http://x/1.png", "高兴", "猫咪", "p", "g", "s"⟩]
      ⟨"http://x/1.png", "高兴", "猫咪", "p", "g", "s"⟩ rfl (by decide)
  · exact (send_sticker_spec (.error ()) "高兴" "" 0).2.2.2 () rfl

/-- **C10.** When the parsed JSON object lacks the `is_sticker` field or
the `confidence` field, `.get` substitutes the defaults (`False`, `0.0`)
instead of raising: with a positive threshold (the default is 0.8) the
image is silently rejected — no record is written, the accept branch is
not reached, and the event is still marked handled. -/
theorem missing_fields_rejected (cfg : Config) (comps : List MsgComp)
    (providerOk : Bool) (fields : List (String × JsonVal)) (ev : EventInfo)
    (db : List Sticker) (url : String)
    (hen : cfg.autoCollectEnabled = true)
    (himg : firstImageUrl comps = some url)
    (hprov : providerOk = true)
    (hpos : 0 < cfg.minConfidence)
    (hmiss : fields.lookup "is_sticker" = none ∨ fields.lookup "confidence" = none) :
    (autoCollectSticker cfg comps providerOk (.obj fields) ev db).accepted = false
    ∧ (autoCollectSticker cfg comps providerOk (.obj fields) ev db).db = db
    ∧ (autoCollectSticker cfg comps providerOk (.obj fields) ev db).handled = true := by
  unfold autoCollectSticker
  rw [hen, himg, hprov]
  simp only [Bool.true_eq_false, if_false]
  rcases hmiss with hm | hm
  · simp [jget, hm, truthy]
  · cases ht : truthy (jget fields "is_sticker" (.bool false)) with
    | false => simp [ht]
    | true =>
        have hc : pyGe (jget fields "confidence" (.num 0)) cfg.minConfidence
            = .ok false := by
          simp only [jget, hm, pyGe]
          simp [not_le.mpr hpos]
        simp [ht, hc]

/-- **C10 witness.** A verdict `{"is_sticker": true}` with no confidence
field is rejected under the default threshold. -/
theorem missing_fields_rejected_witness :
    (autoCollectSticker ⟨true, mkRat 4 5⟩ [.image (some "u")] true
      (.obj [("is_sticker", .bool true)]) ⟨"p", "g", "s"⟩ []).accepted = false
    ∧ (autoCollectSticker ⟨true, mkRat 4 5⟩ [.image (some "u")] true
      (.obj [("is_sticker", .bool true)]) ⟨"p", "g", "s"⟩ []).db = ([] : List Sticker) := by
  have h := missing_fields_rejected ⟨true, mkRat 4 5⟩ [.image (some "u")] true
    [("is_sticker", .bool true)] ⟨"p", "g", "s"⟩ [] "u"
    rfl (by decide) rfl (by decide) (Or.inr (by decide))
  exact ⟨h.1, h.2.1⟩

end StickerCollector
